import Mathlib

/-!
Verification development for `src/store/displayPreferencesApi.ts` of
jellyfin-vue: the display-preferences synchronisation module.

The module converts between the server's string-valued preferences blob
(`DisplayPreferencesDto.CustomPrefs`) and the typed client settings store,
and orchestrates pull (`initState`) / push (`pushState`) around a small
sync-state tracker.

Modelling conventions:
* JavaScript dynamic values are the inductive `JSValue` (numbers are
  restricted to integers plus `NaN`/`Infinity`; float literals are not
  modelled — no claim depends on them).
* Objects such as `CustomPrefs` and the settings store are association
  lists `List (String × JSValue)` (`PrefsMap`); JavaScript objects have
  no duplicate keys, and all concrete inputs used below are duplicate-free.
* Asynchronous network calls are resolved through an explicit environment
  `Env` carrying the response statuses and payload; `Date.now()` is
  `Env.now`.  Actions become total functions `Env → GlobalState →
  ActionResult`; a thrown-and-caught JavaScript error shows up as the
  snackbar notification the `catch` block dispatches, never as a Lean
  `Except` that escapes — this models the orchestrator boundary that
  swallows all errors.
* The default-settings object `settingState()` from `~/store/settings` is
  not part of the given sources; following the spec it is treated as an
  opaque Schema Oracle: a `PrefsMap` parameter whose values' runtime types
  select the coercion rules, exactly as the source inspects
  `typeof settingState()[key]`.
-/

namespace DP

mutual

/-- JavaScript dynamic values, as needed by the module: strings, booleans,
numbers (integers, `NaN`, `Infinity`), `null`, `undefined`, arrays and
boxed objects.  Arrays use the mutual `JSList` so that decidable equality
can be derived. -/
inductive JSValue where
  | str : String → JSValue
  | bool : Bool → JSValue
  | num : Int → JSValue
  | nan : JSValue
  | inf : JSValue
  | null : JSValue
  | undef : JSValue
  | arr : JSList → JSValue
  | obj : JSValue → JSValue
deriving Repr, DecidableEq

inductive JSList where
  | nil : JSList
  | cons : JSValue → JSList → JSList
deriving Repr, DecidableEq

end

/-- Convert a `JSList` to an ordinary Lean list. -/
def JSList.toList : JSList → List JSValue
  | .nil => []
  | .cons v vs => v :: vs.toList

/-- Build a `JSList` from an ordinary Lean list. -/
def JSList.ofList : List JSValue → JSList
  | [] => .nil
  | v :: vs => .cons v (JSList.ofList vs)

mutual

/-- JavaScript's `String(value)` conversion.  The array case follows
`Array.prototype.join(',')`, where `null` and `undefined` elements render
as the empty string.  `String` of a boxed primitive yields the primitive's
string. -/
def jsString : JSValue → String
  | .str s => s
  | .bool b => if b then "true" else "false"
  | .num n => toString n
  | .nan => "NaN"
  | .inf => "Infinity"
  | .null => "null"
  | .undef => "undefined"
  | .obj v => jsString v
  | .arr xs => jsStringElems xs
termination_by structural v => v

def jsStringElems : JSList → String
  | .nil => ""
  | .cons v .nil =>
    (match v with
     | .null => ""
     | .undef => ""
     | w => jsString w)
  | .cons v vs =>
    (match v with
     | .null => ""
     | .undef => ""
     | w => jsString w) ++ "," ++ jsStringElems vs
termination_by structural l => l

end

mutual

/-- Lodash's internal `baseToString`: like `String(value)` except that
array elements go through `baseToString` recursively, so `null` inside an
array renders as `"null"` rather than `""`. -/
def baseToString : JSValue → String
  | .str s => s
  | .bool b => if b then "true" else "false"
  | .num n => toString n
  | .nan => "NaN"
  | .inf => "Infinity"
  | .null => "null"
  | .undef => "undefined"
  | .obj _ => "[object Object]"
  | .arr xs => baseToStringElems xs
termination_by structural v => v

def baseToStringElems : JSList → String
  | .nil => ""
  | .cons v .nil => baseToString v
  | .cons v vs => baseToString v ++ "," ++ baseToStringElems vs
termination_by structural l => l

end

/-- Lodash's `toString` (imported as `toStr` in the source): `''` for
`null` and `undefined`, otherwise `baseToString`. -/
def toStr (v : JSValue) : String :=
  match v with
  | .null => ""
  | .undef => ""
  | v => baseToString v

/-- JavaScript's `Boolean(value)` truthiness: every non-empty string is
truthy — in particular `Boolean("false") = true`. -/
def toBoolean : JSValue → Bool
  | .str s => s != ""
  | .bool b => b
  | .num n => n != 0
  | .nan => false
  | .inf => true
  | .null => false
  | .undef => false
  | .arr _ => true
  | .obj _ => true

/-- ASCII whitespace, for the trimming JavaScript's `Number` and `trim`
perform. -/
def isWsChar (c : Char) : Bool :=
  c == ' ' || c == '\t' || c == '\n' || c == '\r'

/-- Trim leading and trailing whitespace (structural, so that concrete
evaluation reduces in the kernel). -/
def trimStr (s : String) : String :=
  String.mk (((s.data.dropWhile isWsChar).reverse.dropWhile isWsChar).reverse)

/-- Lower-case an ASCII letter. -/
def charToLower (c : Char) : Char :=
  if 'A' ≤ c && c ≤ 'Z' then Char.ofNat (c.toNat + 32) else c

/-- JavaScript's `toLowerCase`, on the ASCII range the module uses. -/
def toLowerStr (s : String) : String :=
  String.mk (s.data.map charToLower)

/-- Accumulator loop for `jsSplitComma`; `acc` holds the current field's
characters in reverse. -/
def splitCommaAux : List Char → List Char → List String
  | [], acc => [String.mk acc.reverse]
  | c :: rest, acc =>
    if c == ',' then String.mk acc.reverse :: splitCommaAux rest []
    else splitCommaAux rest (c :: acc)

/-- JavaScript's `String.prototype.split(',')`: the empty string yields
`[""]`, and each comma starts a new field. -/
def jsSplitComma (s : String) : List String :=
  splitCommaAux s.data []

/-- Digits to the natural number they denote (most significant first). -/
def digitsToNat (cs : List Char) : Nat :=
  cs.foldl (fun acc c => acc * 10 + (c.toNat - 48)) 0

/-- Whether `cs` is a non-empty run of decimal digits. -/
def isDigits (cs : List Char) : Bool :=
  cs != [] && cs.all Char.isDigit

/-- Parse a string as an optionally signed decimal integer literal. -/
def parseIntString (s : String) : Option Int :=
  match s.data with
  | '-' :: rest => if isDigits rest then some (-(digitsToNat rest : Int)) else none
  | cs => if isDigits cs then some ((digitsToNat cs : Int)) else none

/-- JavaScript's `Number(string)`: trims whitespace, the empty string is
`0`, integer literals parse, anything else is `NaN` (float/hex literals
are outside this development's scope). -/
def jsNumberOfString (s : String) : JSValue :=
  let t := trimStr s
  if t == "" then .num 0
  else
    match parseIntString t with
    | some n => .num n
    | none => .nan

/-- JavaScript's `Number(value)` conversion. -/
def toNumber : JSValue → JSValue
  | .str s => jsNumberOfString s
  | .bool b => .num (if b then 1 else 0)
  | .num n => .num n
  | .nan => .nan
  | .inf => .inf
  | .null => .num 0
  | .undef => .nan
  | .arr xs => jsNumberOfString (jsStringElems xs)
  | .obj v => toNumber v

/-- Drop leading JSON whitespace. -/
def skipWs (cs : List Char) : List Char :=
  cs.dropWhile (fun c => c == ' ' || c == '\t' || c == '\n' || c == '\r')

/-- Whether the remainder would make a numeric literal non-integral
(a fraction or exponent part follows the digits). -/
def floatContinues : List Char → Bool
  | '.' :: _ => true
  | 'e' :: _ => true
  | 'E' :: _ => true
  | _ => false

/-- Reverse the first `JSList` onto the second. -/
def revAppendJS : JSList → JSList → JSList
  | .nil, ys => ys
  | .cons x xs, ys => revAppendJS xs (.cons x ys)

mutual

/-- Fuel-based recursive-descent parser for the fragment of JSON that the
module's data can contain: `true`, `false`, `null`, integer literals,
escape-free strings and arrays of these.  Inputs outside the fragment
(floats, objects, escapes) fail, which makes `destr` below fall back to
returning the raw string. -/
def parseJsonVal : Nat → List Char → Option (JSValue × List Char)
  | 0, _ => none
  | fuel + 1, cs =>
    match skipWs cs with
    | 't' :: 'r' :: 'u' :: 'e' :: rest => some (.bool true, rest)
    | 'f' :: 'a' :: 'l' :: 's' :: 'e' :: rest => some (.bool false, rest)
    | 'n' :: 'u' :: 'l' :: 'l' :: rest => some (.null, rest)
    | '"' :: rest =>
      let content := rest.takeWhile (fun c => c != '"' && c != '\\')
      (match rest.drop content.length with
       | '"' :: rest2 => some (.str (String.mk content), rest2)
       | _ => none)
    | '[' :: rest =>
      (match skipWs rest with
       | ']' :: rest2 => some (.arr .nil, rest2)
       | rest2 => parseJsonItems fuel rest2 .nil)
    | '-' :: rest =>
      let ds := rest.takeWhile Char.isDigit
      if ds == [] then none
      else
        let rem := rest.drop ds.length
        if floatContinues rem then none
        else some (.num (-(digitsToNat ds : Int)), rem)
    | c :: rest =>
      if c.isDigit then
        let ds := (c :: rest).takeWhile Char.isDigit
        let rem := (c :: rest).drop ds.length
        if floatContinues rem then none
        else some (.num (digitsToNat ds : Int), rem)
      else none
    | [] => none
termination_by structural fuel => fuel

/-- Parse the comma-separated items of a JSON array, accumulating into a
`JSList` (`acc` holds the items parsed so far, in reverse). -/
def parseJsonItems : Nat → List Char → JSList → Option (JSValue × List Char)
  | 0, _, _ => none
  | fuel + 1, cs, acc =>
    match parseJsonVal fuel cs with
    | none => none
    | some (v, rest) =>
      match skipWs rest with
      | ',' :: rest2 => parseJsonItems fuel rest2 (.cons v acc)
      | ']' :: rest2 => some (.arr (revAppendJS acc (.cons v .nil)), rest2)
      | _ => none
termination_by structural fuel => fuel

end

/-- JavaScript's `JSON.parse`, restricted to the fragment of
`parseJsonVal`; `none` models both a parse error and a value outside the
fragment. -/
def jsonParse (s : String) : Option JSValue :=
  match parseJsonVal (s.length + 2) s.data with
  | some (v, rest) => if skipWs rest == [] then some v else none
  | none => none

/-- The `destr` package (v1), as used by the source: lower-cased keyword
literals first, then a JSON-signature gate plus `JSON.parse` with the raw
string as fallback.  The gate and a failed parse both return the input
string, which `jsonParse = none` covers. -/
def destr (s : String) : JSValue :=
  let l := toLowerStr s
  if l == "true" then .bool true
  else if l == "false" then .bool false
  else if l == "null" then .null
  else if l == "nan" then .nan
  else if l == "infinity" then .inf
  else if l == "undefined" then .undef
  else
    match jsonParse s with
    | some v => v
    | none => .str s

/-- A JavaScript object as an association list: the model of
`CustomPrefs` payloads and of the settings store's state. -/
abbrev PrefsMap := List (String × JSValue)

/-- Property read `m[k]` on an object: `none` models `undefined`. -/
def lookupKey : PrefsMap → String → Option JSValue
  | [], _ => none
  | kv :: rest, k => if kv.1 == k then some kv.2 else lookupKey rest k

/-- The `delete m[k]` operation on an object. -/
def removeKey : PrefsMap → String → PrefsMap
  | [], _ => []
  | kv :: rest, k => if kv.1 == k then removeKey rest k else kv :: removeKey rest k

/-- Property write `m[k] = v` on an object: overwrite in place if the key
exists, else append. -/
def setKey (m : PrefsMap) (k : String) (v : JSValue) : PrefsMap :=
  if (lookupKey m k).isSome then
    m.map (fun kv => if kv.1 == k then (k, v) else kv)
  else m ++ [(k, v)]

/-- The per-entry body of `castResponse`'s loop (source lines 46-71):
dispatch on `typeof settingState()[key]`.  `stateValue = none` is the
`undefined` read of a key absent from the default settings; `typeof
undefined` and `typeof string` match no branch, so the value is left
untouched.  `NaN` and `Infinity` have `typeof number`.  The generic
`object` branch is `Object(value)`. -/
def castValue (stateValue : Option JSValue) (value : JSValue) : JSValue :=
  match stateValue with
  | some (.bool _) => .bool (toBoolean value)
  | some (.num _) => toNumber value
  | some .nan => toNumber value
  | some .inf => toNumber value
  | some (.arr _) => .arr (JSList.ofList ((jsSplitComma (jsString value)).map destr))
  | some .null => .null
  | some (.obj _) => .obj value
  | some .undef => value
  | some (.str _) => value
  | none => value

/-- The value-level effect of `castResponse` (source lines 40-74) on the
`CustomPrefs` mapping: every entry's value is rewritten by `castValue`
against the default-settings reference value for its key. -/
def castResponse (schema : PrefsMap) (prefs : PrefsMap) : PrefsMap :=
  prefs.map (fun kv => (kv.1, castValue (lookupKey schema kv.1) kv.2))

/-- A `castResponse` call as the caller observes it: source line 41 is
`const result = data as ClientPreferences` — a type assertion, not a copy
— so `result` aliases `data` and the loop's writes mutate the caller's
object.  The first component is the returned mapping, the second the
state of the caller's input object after the call; by the aliasing both
are the mutated mapping. -/
def castResponseCall (schema : PrefsMap) (prefs : PrefsMap) : PrefsMap × PrefsMap :=
  (castResponse schema prefs, castResponse schema prefs)

/-- The per-entry body of `pushState`'s encoding loop (source lines
191-197): arrays render as `[` ++ lodash `toString` ++ `]`, everything
else as lodash `toString`. -/
def encodeValue (v : JSValue) : JSValue :=
  match v with
  | .arr _ => .str ("[" ++ toStr v ++ "]")
  | _ => .str (toStr v)

/-- The encoding loop of `pushState` over the whole mapping. -/
def encodePrefs (prefs : PrefsMap) : PrefsMap :=
  prefs.map (fun kv => (kv.1, encodeValue kv.2))

/-- The own property names of `Object.prototype`, inherited by every
plain JavaScript object literal and therefore visible to the `in`
operator. -/
def objectPrototypeKeys : List String :=
  ["constructor", "hasOwnProperty", "isPrototypeOf", "propertyIsEnumerable",
   "toLocaleString", "toString", "valueOf", "__defineGetter__",
   "__defineSetter__", "__lookupGetter__", "__lookupSetter__", "__proto__"]

/-- The JavaScript `in` operator on a plain object literal such as
`settingState()`: true for the object's own keys and for the properties
inherited from `Object.prototype`. -/
def keyInObject (m : PrefsMap) (k : String) : Bool :=
  (lookupKey m k).isSome || objectPrototypeKeys.contains k

/-- The key-filter step of `initState` (source lines 128-133): delete
every key `key` with `!(key in settingState())`.  Because `in` consults
the prototype chain, keys inherited from `Object.prototype` (such as
`toString`) pass the test and are kept even though they are not
default-settings keys. -/
def filterToSchema (schema : PrefsMap) (prefs : PrefsMap) : PrefsMap :=
  prefs.filter (fun kv => keyInObject schema kv.1)

/-- The module's Vuex state (source lines 22-26). -/
structure DisplayPreferencesApiState where
  syncing : Bool
  LastSync : Int
  LastSettingChange : Int
deriving Repr, DecidableEq

/-- The value `defaultState()` returns (source lines 28-32). -/
def defaultState : DisplayPreferencesApiState :=
  { syncing := false, LastSync := -1, LastSettingChange := -1 }

/-- The `RESET_STATE` mutation (source lines 79-81).  The source runs
`Object.assign(state, defaultState)` with the **function value**
`defaultState` as the assignment source — not the call `defaultState()`.
A function object has no enumerable own properties, so `Object.assign`
copies nothing and the mutation leaves the state unchanged. -/
def RESET_STATE (s : DisplayPreferencesApiState) : DisplayPreferencesApiState :=
  s

/-- The `SYNCING_STARTED` mutation (source lines 82-84). -/
def SYNCING_STARTED (s : DisplayPreferencesApiState) : DisplayPreferencesApiState :=
  { s with syncing := true }

/-- The `SYNCING_ENDED` mutation (source lines 85-88); `now` is the
`Date.now()` it reads. -/
def SYNCING_ENDED (now : Int) (s : DisplayPreferencesApiState) : DisplayPreferencesApiState :=
  { s with syncing := false, LastSync := now }

/-- The `UPDATE_CLIENT_SETTINGS` mutation (source lines 89-91). -/
def UPDATE_CLIENT_SETTINGS (now : Int) (s : DisplayPreferencesApiState) : DisplayPreferencesApiState :=
  { s with LastSettingChange := now }

/-- The environment a single action call runs against: the auth context,
the responses the network collaborator would return, and the clock.
`fetchCustomPrefs = none` models a response whose `CustomPrefs` property
is `undefined`. -/
structure Env where
  loggedIn : Bool
  fetchStatus : Nat
  fetchCustomPrefs : Option PrefsMap
  updateStatus : Nat
  now : Int
deriving Repr, DecidableEq

/-- The mutable state an action touches: this module's tracker plus the
global settings store (`rootState.settings`). -/
structure GlobalState where
  tracker : DisplayPreferencesApiState
  settings : PrefsMap
deriving Repr, DecidableEq

/-- What one action call produces: the final state, the snackbar
notifications dispatched, how many fetch/update network requests were
issued, and the encoded document handed to the update call (if any). -/
structure ActionResult where
  state : GlobalState
  snackbars : List String
  fetchCalls : Nat
  updateCalls : Nat
  sentPrefs : Option PrefsMap
deriving Repr, DecidableEq

/-- Modelled from the spec: the settings store's `INIT_STATE` merge
(`commit('settings/INIT_STATE', …)` at source lines 134-138 targets
`~/store/settings`, which is not among the given sources).  Per the spec
it accepts a partial typed mapping and merges it into the current state,
setting exactly the fields present in the mapping. -/
def INIT_STATE (current data : PrefsMap) : PrefsMap :=
  data.foldl (fun acc kv => setKey acc kv.1 kv.2) current

/-- Truthiness of `settings.status` (source line 187): `undefined` when
the key is absent, hence falsy. -/
def statusTruthy (settings : PrefsMap) : Bool :=
  match lookupKey settings "status" with
  | some v => toBoolean v
  | none => false

/-- The `initState` action (source lines 104-153), the pull operation.
Not logged in: nothing happens.  Otherwise `SYNCING_STARTED`, then the
`try` block: a non-200 fetch throws; `castResponse` throws on an
`undefined` `CustomPrefs` (`Object.entries(undefined)`); on success the
decoded mapping is filtered to the default-settings keys and merged into
the settings store.  The `catch` block turns any throw into one snackbar
message.  `SYNCING_ENDED` runs after the `try`/`catch`, unconditionally. -/
def initState (schema : PrefsMap) (env : Env) (g : GlobalState) : ActionResult :=
  if env.loggedIn then
    let t1 := SYNCING_STARTED g.tracker
    match
      (if env.fetchStatus != 200 then none
       else
         match env.fetchCustomPrefs with
         | none => none
         | some prefs => some (filterToSchema schema (castResponse schema prefs)))
    with
    | some filtered =>
      { state := { tracker := SYNCING_ENDED env.now t1
                   settings := INIT_STATE g.settings filtered }
        snackbars := []
        fetchCalls := 1
        updateCalls := 0
        sentPrefs := none }
    | none =>
      { state := { tracker := SYNCING_ENDED env.now t1, settings := g.settings }
        snackbars := ["failedRetrievingDisplayPreferences"]
        fetchCalls := 1
        updateCalls := 0
        sentPrefs := none }
  else
    { state := g, snackbars := [], fetchCalls := 0, updateCalls := 0, sentPrefs := none }

/-- The `pushState` action (source lines 161-226), the push operation.
Not logged in: nothing happens.  Otherwise `SYNCING_STARTED`, then the
`try` block: fetch the current remote document (a non-200 status throws);
read `rootState.settings` by reference and, when `settings.status` is
truthy, `delete settings.status` **on the shared store object**; copy the
settings into the document's fresh `CustomPrefs` and encode every value
to a string; send the update (a non-204 status throws, after the send).
The `catch` block turns any throw into one snackbar message.
`SYNCING_ENDED` runs unconditionally after the `try`/`catch`. -/
def pushState (env : Env) (g : GlobalState) : ActionResult :=
  if env.loggedIn then
    let t1 := SYNCING_STARTED g.tracker
    if env.fetchStatus != 200 then
      { state := { tracker := SYNCING_ENDED env.now t1, settings := g.settings }
        snackbars := ["failedSettingDisplayPreferences"]
        fetchCalls := 1
        updateCalls := 0
        sentPrefs := none }
    else
      let settings1 := if statusTruthy g.settings then removeKey g.settings "status" else g.settings
      let sent := encodePrefs settings1
      if env.updateStatus != 204 then
        { state := { tracker := SYNCING_ENDED env.now t1, settings := settings1 }
          snackbars := ["failedSettingDisplayPreferences"]
          fetchCalls := 1
          updateCalls := 1
          sentPrefs := some sent }
      else
        { state := { tracker := SYNCING_ENDED env.now t1, settings := settings1 }
          snackbars := []
          fetchCalls := 1
          updateCalls := 1
          sentPrefs := some sent }
  else
    { state := g, snackbars := [], fetchCalls := 0, updateCalls := 0, sentPrefs := none }

/-- The `updateSettings` action (source lines 227-230): commit
`UPDATE_CLIENT_SETTINGS`, then dispatch `pushState`. -/
def updateSettings (env : Env) (g : GlobalState) : ActionResult :=
  pushState env { g with tracker := UPDATE_CLIENT_SETTINGS env.now g.tracker }

/-- The `resetState` action (source lines 238-240): commit `RESET_STATE`;
the settings store is not touched. -/
def resetState (g : GlobalState) : ActionResult :=
  { state := { tracker := RESET_STATE g.tracker, settings := g.settings }
    snackbars := []
    fetchCalls := 0
    updateCalls := 0
    sentPrefs := none }

/-- Modelled from the spec: a concrete instance of the Schema Oracle,
shaped after the `CustomPreferences` interface (source lines 10-13): a
boolean `darkMode` and a string `locale` (the actual `settingState()` is
outside the given sources). -/
def settingStateModel : PrefsMap :=
  [("darkMode", JSValue.bool false), ("locale", JSValue.str "en")]

/-- A healthy environment: authenticated, both network calls succeed. -/
def envEx : Env :=
  { loggedIn := true
    fetchStatus := 200
    fetchCustomPrefs := some [("darkMode", JSValue.str "true")]
    updateStatus := 204
    now := 10 }

/-- An unauthenticated environment. -/
def envNoAuth : Env :=
  { loggedIn := false
    fetchStatus := 200
    fetchCustomPrefs := some [("darkMode", JSValue.str "true")]
    updateStatus := 204
    now := 10 }

/-- A baseline global state: fresh tracker, simple settings. -/
def gEx : GlobalState :=
  { tracker := defaultState
    settings := [("darkMode", JSValue.bool true), ("locale", JSValue.str "en")] }

/-- A global state whose settings carry a falsy `status` field (the empty
string). -/
def gStatusFalsy : GlobalState :=
  { tracker := defaultState
    settings := [("status", JSValue.str ""), ("darkMode", JSValue.bool true)] }

/-- A global state whose settings carry a truthy `status` field. -/
def gStatusTruthy : GlobalState :=
  { tracker := defaultState
    settings := [("status", JSValue.str "loading"), ("darkMode", JSValue.bool true)] }

/-- Looking a key up after `removeKey` of a different key is unchanged. -/
lemma lookupKey_removeKey (m : PrefsMap) (k j : String) (h : j ≠ k) :
    lookupKey (removeKey m k) j = lookupKey m j := by
  induction m with
  | nil => rfl
  | cons kv rest ih =>
    by_cases hk : kv.1 = k
    · have hj : kv.1 ≠ j := fun he => h (he ▸ hk ▸ rfl)
      simp [removeKey, hk, lookupKey, hj, ih, Ne.symm h]
    · by_cases hj : kv.1 = j
      · simp [removeKey, hk, lookupKey, hj, h]
      · simp [removeKey, hk, lookupKey, hj, ih]

/-- `pushState` never changes `LastSettingChange`. -/
lemma pushState_LastSettingChange (env : Env) (g : GlobalState) :
    (pushState env g).state.tracker.LastSettingChange = g.tracker.LastSettingChange := by
  by_cases hl : env.loggedIn
  · by_cases hf : env.fetchStatus = 200
    · by_cases hu : env.updateStatus = 204
      · simp [pushState, hl, hf, hu, SYNCING_ENDED, SYNCING_STARTED]
      · simp [pushState, hl, hf, hu, SYNCING_ENDED, SYNCING_STARTED]
    · simp [pushState, hl, hf, SYNCING_ENDED, SYNCING_STARTED]
  · simp [pushState, hl]

/-- When authenticated, `pushState` ends with `syncing = false`. -/
lemma pushState_syncing_loggedIn (env : Env) (g : GlobalState)
    (hl : env.loggedIn = true) :
    (pushState env g).state.tracker.syncing = false := by
  by_cases hf : env.fetchStatus = 200
  · by_cases hu : env.updateStatus = 204
    · simp [pushState, hl, hf, hu, SYNCING_ENDED]
    · simp [pushState, hl, hf, hu, SYNCING_ENDED]
  · simp [pushState, hl, hf, SYNCING_ENDED]

/-- When authenticated, `initState` ends with `syncing = false`. -/
lemma initState_syncing_loggedIn (schema : PrefsMap) (env : Env) (g : GlobalState)
    (hl : env.loggedIn = true) :
    (initState schema env g).state.tracker.syncing = false := by
  by_cases hf : env.fetchStatus = 200
  · cases hc : env.fetchCustomPrefs with
    | none => simp [initState, hl, hf, hc, SYNCING_ENDED]
    | some prefs => simp [initState, hl, hf, hc, SYNCING_ENDED]
  · simp [initState, hl, hf, SYNCING_ENDED]

/-- C1: the spec claims the decode-encode round trip
`decode(encode(x), schema) == x` (after filtering to schema keys) for
values with only boolean/number/sequence fields.  The code violates it:
for `x = {darkMode: false}` the push loop encodes `false` as the string
`"false"`, and `castResponse` decodes that with `Boolean("false") = true`
(any non-empty string is truthy), so the round trip returns
`{darkMode: true} ≠ x`. -/
theorem roundtrip_fails_on_bool_false :
    filterToSchema settingStateModel
        (castResponse settingStateModel (encodePrefs [("darkMode", JSValue.bool false)]))
      ≠ [("darkMode", JSValue.bool false)] := by
  decide

/-- C2: the spec requires decoding the string `"false"` at a boolean-typed
schema key to yield `false`.  The code uses `Boolean(value)` (source line
49), and `Boolean` of any non-empty string is `true`, so the string
`"false"` decodes to the boolean `true`. -/
theorem boolean_false_decodes_to_true :
    castResponse settingStateModel [("darkMode", JSValue.str "false")]
      = [("darkMode", JSValue.bool true)] := by
  decide

/-- C3: encoding the sequence `[1, "a", true]` does yield the string
`"[1,a,true]"`, but decoding that string at a sequence-typed key does not
recover the elements `1`, `"a"`, `true`: `castResponse` splits the raw
string (brackets included) on `,` giving `"[1"`, `"a"`, `"true]"`, and
`destr` leaves the bracketed fragments as plain strings. -/
theorem sequence_decode_keeps_brackets :
    encodeValue (JSValue.arr (JSList.ofList [JSValue.num 1, JSValue.str "a", JSValue.bool true]))
      = JSValue.str "[1,a,true]" ∧
    castValue (some (JSValue.arr JSList.nil)) (JSValue.str "[1,a,true]")
      = JSValue.arr (JSList.ofList [JSValue.str "[1", JSValue.str "a", JSValue.str "true]"]) ∧
    castValue (some (JSValue.arr JSList.nil)) (JSValue.str "[1,a,true]")
      ≠ JSValue.arr (JSList.ofList [JSValue.num 1, JSValue.str "a", JSValue.bool true]) := by
  decide

/-- C4: the spec claims the key-filter step leaves only schema keys, so
that every key not in the schema is absent from the mapping merged into
the settings store.  The code violates it: the filter tests `key in
settingState()` (source line 129), and the JavaScript `in` operator
consults the prototype chain, so a remote key `toString` — not a
default-settings key, but inherited from `Object.prototype` — passes the
test and survives into the merged mapping, while the ordinary extra key
`legacyFeature` is deleted as the claim describes.  The code's own
comment (lines 124-127) says keys not defined in the default state are
deleted, which `toString` contradicts. -/
theorem filter_keeps_prototype_keys :
    lookupKey settingStateModel "toString" = none ∧
    filterToSchema settingStateModel
        (castResponse settingStateModel
          [("darkMode", JSValue.str "true"), ("legacyFeature", JSValue.str "x"),
           ("toString", JSValue.str "x")])
      = [("darkMode", JSValue.bool true), ("toString", JSValue.str "x")] := by
  decide

/-- C5: after any `initState` (pull) or `pushState` (push) call — success
or failure (non-200 fetch, a throwing `castResponse`, non-204 persist) —
the tracker's `syncing` flag is `false`: `SYNCING_ENDED` runs
unconditionally after the `try`/`catch` when authenticated, and the
unauthenticated path leaves the (false) flag untouched.  Both actions are
total functions of the environment whose only failure signal is the
snackbar list, which models that no error escapes to the caller. -/
theorem pull_push_end_not_inflight (schema : PrefsMap) (env : Env) (g : GlobalState)
    (h : g.tracker.syncing = false) :
    (initState schema env g).state.tracker.syncing = false ∧
    (pushState env g).state.tracker.syncing = false := by
  constructor
  · by_cases hl : env.loggedIn = true
    · exact initState_syncing_loggedIn schema env g hl
    · have hl2 : env.loggedIn = false := by simpa using hl
      simpa [initState, hl2] using h
  · by_cases hl : env.loggedIn = true
    · exact pushState_syncing_loggedIn env g hl
    · have hl2 : env.loggedIn = false := by simpa using hl
      simpa [pushState, hl2] using h

/-- Witness for C5 at a concrete environment and state. -/
theorem pull_push_end_not_inflight_witness :
    (initState settingStateModel envEx gEx).state.tracker.syncing = false ∧
    (pushState envEx gEx).state.tracker.syncing = false :=
  pull_push_end_not_inflight settingStateModel envEx gEx (by decide)

/-- C6: while unauthenticated, both `initState` and `pushState` are
no-ops: the tracker, the settings store, the snackbar list and the
request counters of the result all show nothing happened. -/
theorem unauthenticated_pull_push_noop (schema : PrefsMap) (env : Env) (g : GlobalState)
    (h : env.loggedIn = false) :
    initState schema env g =
      { state := g, snackbars := [], fetchCalls := 0, updateCalls := 0, sentPrefs := none } ∧
    pushState env g =
      { state := g, snackbars := [], fetchCalls := 0, updateCalls := 0, sentPrefs := none } := by
  constructor <;> simp [initState, pushState, h]

/-- Witness for C6 at a concrete unauthenticated environment. -/
theorem unauthenticated_pull_push_noop_witness :
    initState settingStateModel envNoAuth gEx =
      { state := gEx, snackbars := [], fetchCalls := 0, updateCalls := 0, sentPrefs := none } ∧
    pushState envNoAuth gEx =
      { state := gEx, snackbars := [], fetchCalls := 0, updateCalls := 0, sentPrefs := none } :=
  unauthenticated_pull_push_noop settingStateModel envNoAuth gEx (by decide)

/-- C7: `updateSettings` commits `UPDATE_CLIENT_SETTINGS` (setting
`LastSettingChange` to the current time) before dispatching `pushState`,
and `pushState` never touches `LastSettingChange`; so after the call the
timestamp equals the call-time clock and — the clock not being behind the
previously recorded value — is at least its pre-call value, whether or
not the push succeeded. -/
theorem updateSettings_sets_timestamp_first (env : Env) (g : GlobalState)
    (h : g.tracker.LastSettingChange ≤ env.now) :
    updateSettings env g
      = pushState env { g with tracker := UPDATE_CLIENT_SETTINGS env.now g.tracker } ∧
    (updateSettings env g).state.tracker.LastSettingChange = env.now ∧
    g.tracker.LastSettingChange ≤ (updateSettings env g).state.tracker.LastSettingChange := by
  have h2 : (updateSettings env g).state.tracker.LastSettingChange = env.now := by
    unfold updateSettings
    rw [pushState_LastSettingChange]
    rfl
  exact ⟨rfl, h2, by rw [h2]; exact h⟩

/-- Witness for C7 at a concrete environment and state. -/
theorem updateSettings_sets_timestamp_first_witness :
    updateSettings envEx gEx
      = pushState envEx { gEx with tracker := UPDATE_CLIENT_SETTINGS envEx.now gEx.tracker } ∧
    (updateSettings envEx gEx).state.tracker.LastSettingChange = envEx.now ∧
    gEx.tracker.LastSettingChange ≤ (updateSettings envEx gEx).state.tracker.LastSettingChange :=
  updateSettings_sets_timestamp_first envEx gEx (by decide)

/-- C8: the spec says `resetState` restores the tracker defaults
(`syncing = false`, timestamps `-1`).  The code's `RESET_STATE` runs
`Object.assign(state, defaultState)` with the function value instead of
the call `defaultState()`, which copies nothing: from a non-default
tracker state, `resetState` leaves every field unchanged and the result
differs from the defaults. -/
theorem resetState_leaves_state_unchanged :
    (resetState
        { tracker := { syncing := true, LastSync := 100, LastSettingChange := 200 }
          settings := [("darkMode", JSValue.bool true)] }).state.tracker
      = { syncing := true, LastSync := 100, LastSettingChange := 200 } ∧
    ({ syncing := true, LastSync := 100, LastSettingChange := 200 } : DisplayPreferencesApiState)
      ≠ defaultState := by
  decide

/-- Counterexample for C9: the spec claims `castResponse` does not mutate
its input, but `result` aliases `data` (a type cast, source line 41), so
after a call decoding `{darkMode: "false"}` the caller's object no longer
equals its pre-call value. -/
theorem castResponse_mutates_input_cex :
    (castResponseCall settingStateModel [("darkMode", JSValue.str "false")]).2
      ≠ [("darkMode", JSValue.str "false")] := by
  decide

/-- C9 (amended): `castResponse` returns the very object it was given,
mutated in place — the caller's input after the call equals the returned
mapping, not its pre-call value; the key set and order are preserved,
only values are rewritten. -/
theorem castResponse_returns_mutated_input (schema prefs : PrefsMap) :
    (castResponseCall schema prefs).2 = (castResponseCall schema prefs).1 ∧
    ((castResponseCall schema prefs).2).map Prod.fst = prefs.map Prod.fst := by
  refine ⟨rfl, ?_⟩
  simp [castResponseCall, castResponse]

/-- Counterexample for C10: with a `status` field present but falsy (the
empty string) and every network call succeeding while authenticated,
`pushState` leaves the field in the shared settings store — the source
guards the `delete` with `if (settings.status)`, a truthiness test, so a
present-but-falsy field is not deleted as the claim states. -/
theorem push_keeps_falsy_status_cex :
    (lookupKey gStatusFalsy.settings "status").isSome = true ∧
    envEx.loggedIn = true ∧
    lookupKey (pushState envEx gStatusFalsy).state.settings "status"
      = some (JSValue.str "") := by
  decide

/-- C10 (amended): when `pushState` runs authenticated, the initial fetch
succeeds (status 200) and the settings store's `status` field is truthy,
the field is deleted from the shared store object itself (a persistent
side effect, independent of whether the subsequent persist succeeds), and
every other settings field is left unchanged. -/
theorem push_deletes_truthy_status (env : Env) (g : GlobalState)
    (h1 : env.loggedIn = true) (h2 : env.fetchStatus = 200)
    (h3 : statusTruthy g.settings = true) :
    (pushState env g).state.settings = removeKey g.settings "status" ∧
    ∀ k : String, k ≠ "status" →
      lookupKey ((pushState env g).state.settings) k = lookupKey g.settings k := by
  have hs : (pushState env g).state.settings = removeKey g.settings "status" := by
    by_cases hu : env.updateStatus = 204
    · simp [pushState, h1, h2, h3, hu]
    · simp [pushState, h1, h2, h3, hu]
  refine ⟨hs, fun k hk => ?_⟩
  rw [hs]
  exact lookupKey_removeKey g.settings "status" k hk

/-- Witness for C10 (amended) at a concrete truthy `status`. -/
theorem push_deletes_truthy_status_witness :
    (pushState envEx gStatusTruthy).state.settings = removeKey gStatusTruthy.settings "status" ∧
    lookupKey ((pushState envEx gStatusTruthy).state.settings) "darkMode"
      = lookupKey gStatusTruthy.settings "darkMode" :=
  ⟨(push_deletes_truthy_status envEx gStatusTruthy (by decide) (by decide) (by decide)).1,
   (push_deletes_truthy_status envEx gStatusTruthy (by decide) (by decide) (by decide)).2
     "darkMode" (by decide)⟩

end DP
